import Mathlib

/-!
Verification of the pixi language plugin of pre-commit
(`pre_commit/languages/pixi.py`).

A shallow embedding of the module.  The module's
functions are modelled as pure Lean functions; functions with side effects
(process launches, downloads, environment patches, directory creation) return
an explicit trace of `Action`s in the order the Python code performs them.

External collaborators that are not part of the embedded module
(`pre_commit.constants`, `pre_commit.lang_base`, `pre_commit.util`,
`pre_commit.envcontext`, `pre_commit.prefix`) are modelled from their
documented contracts; the hook-command composer `lang_base.hook_cmd` is kept
abstract as a function parameter.
-/

namespace Pixi

/-- Host-platform parameters: `sys.platform`, `os.sep` (directory separator
used by `os.path.join`) and `os.pathsep` (search-path entry separator). -/
structure Platform where
  sysPlatform : String
  osSep : String
  pathSep : String
deriving DecidableEq, Repr

/-- Python `os.path.join(a, b)` for a relative second component. -/
def joinPath (p : Platform) (a b : String) : String :=
  a ++ p.osSep ++ b

/-- One component of an environment-variable patch value: either literal text
or a symbolic reference to the prior value of a variable
(`pre_commit.envcontext.Var`). -/
inductive ValuePart where
  | str (s : String)
  | var (name : String)
deriving DecidableEq, Repr

/-- Model of `pre_commit.envcontext.PatchesT`: an ordered sequence of
(variable, value-parts) pairs; a plain assignment is a single `str` part. -/
abbrev PatchesT := List (String × List ValuePart)

/-- Observable side effects of the module, in program order. -/
inductive Action where
  | makedirs (path : String)
  | urlopen (url : String)
  | writeTempFile (path : String)
  | makeExecutable (path : String)
  | envEnter (patch : PatchesT)
  | envExit (patch : PatchesT)
  | cmdOutputB (argv : List String)
  | runXargs (argv : List String) (fileArgs : List String)
      (requireSerial : Bool) (color : Bool)
deriving DecidableEq, Repr

/-- Modelled from the spec: `C.DEFAULT`, the framework-wide
"unspecified/default" version sentinel from `pre_commit.constants`
(not part of the embedded sources). -/
def C_DEFAULT : String := "default"

/-- Embeds `ENVIRONMENT_DIR = 'pixi_env'`. -/
def ENVIRONMENT_DIR : String := "pixi_env"

/-- Modelled from the spec: `lang_base.environment_dir(prefix, d, version)`,
the isolated environment directory keyed by workspace identity and version
(not part of the embedded sources). -/
def environment_dir (p : Platform) (prefixPath d version : String) : String :=
  joinPath p prefixPath (d ++ "-" ++ version)

/-- Modelled from the spec: `prefix.path(name)` of the prefix/workspace
abstraction, resolving `name` against the workspace root. -/
def prefix_path (p : Platform) (prefixPath name : String) : String :=
  joinPath p prefixPath name

/-- Modelled from `pre_commit.util.win_exe` (not part of the embedded
sources): appends `.exe` on the Windows platform family. -/
def win_exe (p : Platform) (s : String) : String :=
  if p.sysPlatform = "win32" then s ++ ".exe" else s

/-- The body of `get_default_version` without its cache: returns `"system"`
when a `pixi` executable is reachable on the ambient search path
(`lang_base.exe_exists('pixi')`, modelled as the boolean argument), and the
framework default sentinel otherwise. -/
def get_default_version_uncached (exeExistsPixi : Bool) : String :=
  if exeExistsPixi then "system" else C_DEFAULT

/-- Modelled from Python `functools.lru_cache(maxsize=1)` applied to the
nullary `get_default_version`: the cache is an `Option String`; a call with a
warm cache returns the cached value and performs zero probes of the search
path, a call with a cold cache probes once.  Returns
(result, new cache state, number of probes performed). -/
def get_default_version_cached (probe : Bool) (cache : Option String) :
    String × Option String × Nat :=
  match cache with
  | some v => (v, some v, 0)
  | none =>
      let v := get_default_version_uncached probe
      (v, some v, 1)

/-- Embeds `get_env_patch(envdir, version)`. -/
def get_env_patch (p : Platform) (envdir version : String) : PatchesT :=
  if version = "system" then
    []
  else
    [ ("PATH", [.str (joinPath p envdir "bin"), .str p.pathSep, .var "PATH"]),
      ("PIXI_HOME", [.str envdir]) ]

/-- Embeds `_pixi_version(language_version)`: transform the language version
into a pixi version. -/
def _pixi_version (language_version : String) : String :=
  if language_version = C_DEFAULT then "latest" else language_version

/-- Embeds `_install_pixi(envdir, version, platform)`: the trace of the bootstrap
download-and-run.  `tmpdir` is the name of the private temporary directory
produced by `tempfile.TemporaryDirectory`. -/
def _install_pixi (p : Platform) (tmpdir envdir version : String) :
    List Action :=
  let installer_name : String :=
    if p.sysPlatform = "win32" then "install.ps1" else "install.sh"
  let exe := joinPath p tmpdir (win_exe p installer_name)
  [ .urlopen ("https://pixi.sh/" ++ installer_name),
    .writeTempFile exe,
    .makeExecutable exe,
    .envEnter [ ("PIXI_HOME", [.str envdir]),
                ("PIXI_VERSION", [.str version]),
                ("PIXI_NO_PATH_UPDATE", [.str "1"]) ],
    .cmdOutputB [exe],
    .envExit [ ("PIXI_HOME", [.str envdir]),
               ("PIXI_VERSION", [.str version]),
               ("PIXI_NO_PATH_UPDATE", [.str "1"]) ] ]

set_option linter.unusedVariables false in
/-- Embeds `install_environment(prefix, version, additional_dependencies)`:
creates the environment directory, activates the environment patch, and —
unless the version is `"system"` — bootstraps pixi.  The
`additional_dependencies` parameter appears in the Python signature but is
never read. -/
def install_environment (p : Platform) (prefixPath version : String)
    (additional_dependencies : List String) (tmpdir : String) : List Action :=
  let envdir := environment_dir p prefixPath ENVIRONMENT_DIR version
  [Action.makedirs envdir]
    ++ [Action.envEnter (get_env_patch p envdir version)]
    ++ (if version ≠ "system" then
          _install_pixi p tmpdir envdir (_pixi_version version)
        else [])
    ++ [Action.envExit (get_env_patch p envdir version)]

/-- Python `s.startswith(pre)`, computed structurally on the characters. -/
def startsWith (pre s : String) : Bool :=
  pre.data.isPrefixOf s.data

/-- Python `s.split(sep, maxsplit=1)` for a one-character separator:
everything before the first occurrence of `sep`, then the untouched
remainder (or just `[s]` when `sep` does not occur). -/
def splitOnceAux (sep : Char) (acc : List Char) : List Char → List String
  | [] => [String.mk acc.reverse]
  | c :: cs =>
      if c = sep then [String.mk acc.reverse, String.mk cs]
      else splitOnceAux sep (c :: acc) cs

/-- Python `s.split(sep, maxsplit=1)` for a one-character separator. -/
def splitOnce (sep : Char) (s : String) : List String :=
  splitOnceAux sep [] s.data

/-- The manifest-location resolution inside `run_hook`: `os.getcwd()`-based
`pixi.toml` for local hooks, the workspace's `pixi.toml` otherwise. -/
def manifest_path (p : Platform) (is_local : Bool) (cwd prefixPath : String) :
    String :=
  if is_local then joinPath p cwd "pixi.toml"
  else prefix_path p prefixPath "pixi.toml"

/-- Embeds `run_hook(prefix, entry, args, file_args, is_local, require_serial,
color)`.  The hook-command composer `lang_base.hook_cmd` is the abstract
parameter `hc`; `cwd` is `os.getcwd()`.  Returns `none` where the Python code
would raise `IndexError` (`cmd[0]` of an empty command, or `cmd[1]` after a
lone `-e`/`--environment`). -/
def run_hook (p : Platform) (hc : String → List String → List String)
    (cwd prefixPath : String) (entry : String) (args fileArgs : List String)
    (is_local require_serial color : Bool) : Option (List Action) :=
  let project := manifest_path p is_local cwd prefixPath
  let cmd := hc entry args
  match cmd with
  | [] => none
  | c0 :: rest =>
      let envOpt : Option String :=
        if c0 = "-e" ∨ c0 = "--environment" then
          rest.head?
        else if startsWith "-e=" c0 ∨ startsWith "--environment=" c0 then
          (splitOnce '=' c0).get? 1
        else
          some "default"
      envOpt.map fun env =>
        [ Action.cmdOutputB
            ["pixi", "install", "--manifest-path", project, "-e", env],
          Action.runXargs
            (["pixi", "run", "--manifest-path", project] ++ cmd)
            fileArgs require_serial color ]

/-- Observation: the pixi subcommands launched by a trace, in order — for
every process invocation whose argv starts with `pixi`, its first
argument. -/
def pixiSubcommands (tr : List Action) : List String :=
  tr.filterMap fun a =>
    match a with
    | .cmdOutputB argv =>
        if argv.head? = some "pixi" then argv.get? 1 else none
    | .runXargs argv _ _ _ =>
        if argv.head? = some "pixi" then argv.get? 1 else none
    | _ => none

/-- Observation: the manifest path (fourth argv element, the value following
the manifest-path flag in both pixi invocations built by `run_hook`) of every
process launch in a trace. -/
def manifestArgs (tr : List Action) : List String :=
  tr.filterMap fun a =>
    match a with
    | .cmdOutputB argv => argv.get? 3
    | .runXargs argv _ _ _ => argv.get? 3
    | _ => none

/-- Observation: the argv handed to the batching runner (`run_xargs`), if
any. -/
def xargsArgv (tr : List Action) : Option (List String) :=
  tr.findSome? fun a =>
    match a with
    | .runXargs argv _ _ _ => some argv
    | _ => none

/-- A sample Linux platform used by concrete witnesses. -/
def linuxP : Platform := ⟨"linux", "/", ":"⟩

/-- A sample Windows platform used by concrete witnesses. -/
def winP : Platform := ⟨"win32", "\\", ";"⟩

/-- A sample hook-command composer (splits nothing, prepends the entry). -/
def hcSample (entry : String) (args : List String) : List String :=
  entry :: args

/-- C4: for every environment directory `envdir`, `get_env_patch` for version
`"system"` returns the empty patch, and for every other version it returns
exactly two modifications in order: prepend `envdir/bin` to `PATH` using the
platform path separator and a symbolic reference to the prior `PATH` value,
then set `PIXI_HOME` to `envdir`. -/
theorem get_env_patch_system_empty_nonsystem_two
    (p : Platform) (envdir version : String) (h : version ≠ "system") :
    get_env_patch p envdir "system" = [] ∧
    get_env_patch p envdir version =
      [ ("PATH",
          [.str (joinPath p envdir "bin"), .str p.pathSep, .var "PATH"]),
        ("PIXI_HOME", [.str envdir]) ] := by
  refine ⟨rfl, ?_⟩
  simp [get_env_patch, h]

/-- Witness for C4 at a concrete non-system version. -/
theorem get_env_patch_system_empty_nonsystem_two_witness :
    get_env_patch linuxP "/env" "system" = [] ∧
    get_env_patch linuxP "/env" "v1.0" =
      [ ("PATH",
          [.str (joinPath linuxP "/env" "bin"), .str linuxP.pathSep,
            .var "PATH"]),
        ("PIXI_HOME", [.str "/env"]) ] :=
  get_env_patch_system_empty_nonsystem_two linuxP "/env" "v1.0" (by decide)

/-- C5: `_pixi_version` maps the framework default sentinel to `"latest"`
and is the identity on every other version string. -/
theorem pixi_version_default_latest_pin_identity
    (v : String) (h : v ≠ C_DEFAULT) :
    _pixi_version C_DEFAULT = "latest" ∧ _pixi_version v = v := by
  refine ⟨rfl, ?_⟩
  simp [_pixi_version, h]

/-- Witness for C5 at a concrete explicit pin. -/
theorem pixi_version_default_latest_pin_identity_witness :
    _pixi_version C_DEFAULT = "latest" ∧ _pixi_version "v0.38.0" = "v0.38.0" :=
  pixi_version_default_latest_pin_identity "v0.38.0" (by decide)

/-- C6: the first call of the cached default-version resolver returns
`"system"` exactly when a pixi executable is reachable on the ambient search
path and the framework default sentinel otherwise, probing the path once; a
second call returns the same value while probing zero times, whatever the
search path would answer then. -/
theorem get_default_version_probe_once_then_cached (found second : Bool) :
    (get_default_version_cached found none).1 =
      (if found then "system" else C_DEFAULT) ∧
    (get_default_version_cached found none).2.2 = 1 ∧
    (get_default_version_cached second
        (get_default_version_cached found none).2.1).1 =
      (get_default_version_cached found none).1 ∧
    (get_default_version_cached second
        (get_default_version_cached found none).2.1).2.2 = 0 := by
  cases found <;>
    simp [get_default_version_cached, get_default_version_uncached]

/-- C9: `install_environment` performs exactly the same actions whatever
additional dependencies are requested — the parameter is never read. -/
theorem install_environment_ignores_additional_dependencies
    (p : Platform) (prefixPath version tmpdir : String)
    (deps1 deps2 : List String) :
    install_environment p prefixPath version deps1 tmpdir =
    install_environment p prefixPath version deps2 tmpdir := rfl

/-- C7: for every non-system version, `install_environment` bootstraps the
toolchain: it selects the installer name by platform family (`install.ps1`
on the Windows family, `install.sh` otherwise), downloads it from
`https://pixi.sh/` + name, persists it to a private temporary file, marks it
executable, and runs it under exactly three scoped environment overrides —
`PIXI_HOME` pointing at the isolated environment directory, `PIXI_VERSION`
set to the release tag (or `"latest"` for the default sentinel) and
`PIXI_NO_PATH_UPDATE` — while for version `"system"` the whole bootstrap
step is skipped. -/
theorem install_environment_bootstrap
    (p : Platform) (prefixPath version tmpdir : String) (deps : List String)
    (h : version ≠ "system") :
    install_environment p prefixPath "system" deps tmpdir =
      [ .makedirs (environment_dir p prefixPath ENVIRONMENT_DIR "system"),
        .envEnter [], .envExit [] ] ∧
    install_environment p prefixPath version deps tmpdir =
      [ .makedirs (environment_dir p prefixPath ENVIRONMENT_DIR version),
        .envEnter (get_env_patch p
          (environment_dir p prefixPath ENVIRONMENT_DIR version) version),
        .urlopen ("https://pixi.sh/" ++
          (if p.sysPlatform = "win32" then "install.ps1" else "install.sh")),
        .writeTempFile (joinPath p tmpdir (win_exe p
          (if p.sysPlatform = "win32" then "install.ps1" else "install.sh"))),
        .makeExecutable (joinPath p tmpdir (win_exe p
          (if p.sysPlatform = "win32" then "install.ps1" else "install.sh"))),
        .envEnter
          [ ("PIXI_HOME",
              [.str (environment_dir p prefixPath ENVIRONMENT_DIR version)]),
            ("PIXI_VERSION", [.str (_pixi_version version)]),
            ("PIXI_NO_PATH_UPDATE", [.str "1"]) ],
        .cmdOutputB [joinPath p tmpdir (win_exe p
          (if p.sysPlatform = "win32" then "install.ps1" else "install.sh"))],
        .envExit
          [ ("PIXI_HOME",
              [.str (environment_dir p prefixPath ENVIRONMENT_DIR version)]),
            ("PIXI_VERSION", [.str (_pixi_version version)]),
            ("PIXI_NO_PATH_UPDATE", [.str "1"]) ],
        .envExit (get_env_patch p
          (environment_dir p prefixPath ENVIRONMENT_DIR version) version) ] := by
  constructor
  · simp [install_environment, get_env_patch]
  · simp [install_environment, _install_pixi, h]

/-- Witness for C7 on the Windows platform family with a pinned release. -/
theorem install_environment_bootstrap_witness :
    install_environment winP "/ws" "system" [] "/tmp" =
      [ .makedirs (environment_dir winP "/ws" ENVIRONMENT_DIR "system"),
        .envEnter [], .envExit [] ] ∧
    install_environment winP "/ws" "v0.39.0" [] "/tmp" =
      [ .makedirs (environment_dir winP "/ws" ENVIRONMENT_DIR "v0.39.0"),
        .envEnter (get_env_patch winP
          (environment_dir winP "/ws" ENVIRONMENT_DIR "v0.39.0") "v0.39.0"),
        .urlopen ("https://pixi.sh/" ++
          (if winP.sysPlatform = "win32" then "install.ps1" else "install.sh")),
        .writeTempFile (joinPath winP "/tmp" (win_exe winP
          (if winP.sysPlatform = "win32" then "install.ps1" else "install.sh"))),
        .makeExecutable (joinPath winP "/tmp" (win_exe winP
          (if winP.sysPlatform = "win32" then "install.ps1" else "install.sh"))),
        .envEnter
          [ ("PIXI_HOME",
              [.str (environment_dir winP "/ws" ENVIRONMENT_DIR "v0.39.0")]),
            ("PIXI_VERSION", [.str (_pixi_version "v0.39.0")]),
            ("PIXI_NO_PATH_UPDATE", [.str "1"]) ],
        .cmdOutputB [joinPath winP "/tmp" (win_exe winP
          (if winP.sysPlatform = "win32" then "install.ps1" else "install.sh"))],
        .envExit
          [ ("PIXI_HOME",
              [.str (environment_dir winP "/ws" ENVIRONMENT_DIR "v0.39.0")]),
            ("PIXI_VERSION", [.str (_pixi_version "v0.39.0")]),
            ("PIXI_NO_PATH_UPDATE", [.str "1"]) ],
        .envExit (get_env_patch winP
          (environment_dir winP "/ws" ENVIRONMENT_DIR "v0.39.0") "v0.39.0") ] :=
  install_environment_bootstrap winP "/ws" "v0.39.0" "/tmp" [] (by decide)

/-- The bootstrap script path run during installation is never the bare
toolchain executable name: its name ends in the installer file name, so it is
longer than the string `pixi`. -/
lemma bootstrap_exe_ne_pixi (p : Platform) (tmpdir : String) :
    joinPath p tmpdir (win_exe p
      (if p.sysPlatform = "win32" then "install.ps1" else "install.sh")) ≠
      "pixi" := by
  intro hrm
  have hlen := congrArg String.length hrm
  have e1 : ("install.ps1" : String).length = 11 := rfl
  have e2 : ("install.sh" : String).length = 10 := rfl
  have e3 : (".exe" : String).length = 4 := rfl
  have e4 : ("pixi" : String).length = 4 := rfl
  by_cases hw : p.sysPlatform = "win32"
  · simp only [joinPath, win_exe, hw, if_true, eq_self_iff_true,
      String.length_append, e1, e3, e4] at hlen
    omega
  · simp only [joinPath, win_exe, if_neg hw, String.length_append,
      e2, e4] at hlen
    omega

/-- C2 (counterexample): at a concrete workspace with the requested extra
dependency `python ==3.8.5`, `install_environment` issues no `add`, `init`
or `install` toolchain subcommand at all — contrary to the claim that it
initializes the manifest, adds each extra dependency and eagerly installs. -/
theorem install_environment_no_subcommands_counterexample :
    "init" ∉ pixiSubcommands
      (install_environment linuxP "/ws" "v0.39.0" ["python ==3.8.5"] "/tmp") ∧
    "add" ∉ pixiSubcommands
      (install_environment linuxP "/ws" "v0.39.0" ["python ==3.8.5"] "/tmp") ∧
    "install" ∉ pixiSubcommands
      (install_environment linuxP "/ws" "v0.39.0" ["python ==3.8.5"] "/tmp") := by
  decide

/-- C2 (amended): for every workspace, version and requested extra
dependencies, `install_environment` only bootstraps the toolchain itself —
it launches no toolchain subcommand whatsoever (no `init`, no `add`, no
eager `install`); dependency resolution is instead performed by the
run phase. -/
theorem install_environment_issues_no_toolchain_subcommands
    (p : Platform) (prefixPath version tmpdir : String)
    (deps : List String) :
    pixiSubcommands (install_environment p prefixPath version deps tmpdir) =
      [] := by
  by_cases hv : version = "system"
  · simp [install_environment, pixiSubcommands, hv, get_env_patch]
  · simp only [install_environment, _install_pixi, pixiSubcommands, hv,
      if_true, if_false, ite_not, List.filterMap_append]
    simp [bootstrap_exe_ne_pixi p tmpdir, hv]

/-- Whenever `run_hook` succeeds, its trace is exactly one synchronous pixi
install against the resolved manifest followed by the batched pixi run of
the composed hook command, for some selected environment name. -/
lemma run_hook_cases
    (p : Platform) (hc : String → List String → List String)
    (cwd prefixPath entry : String) (args fileArgs : List String)
    (is_local require_serial color : Bool) (tr : List Action)
    (h : run_hook p hc cwd prefixPath entry args fileArgs is_local
          require_serial color = some tr) :
    ∃ env, tr =
      [ Action.cmdOutputB
          ["pixi", "install", "--manifest-path",
            manifest_path p is_local cwd prefixPath, "-e", env],
        Action.runXargs
          (["pixi", "run", "--manifest-path",
            manifest_path p is_local cwd prefixPath] ++ hc entry args)
          fileArgs require_serial color ] := by
  rcases hcmd : hc entry args with _ | ⟨c0, rest⟩ <;>
    simp only [run_hook, hcmd] at h
  · exact absurd h (by simp)
  · rw [Option.map_eq_some'] at h
    obtain ⟨env, hE, hf⟩ := h
    exact ⟨env, hf.symm⟩

/-- C8: every invocation of `run_hook` resolves the manifest as `pixi.toml`
in the caller's current working directory when `is_local` is true and as the
workspace's own `pixi.toml` otherwise, uses that manifest in both pixi
invocations it builds, and — since the code never consults the filesystem —
the local resolution is independent of the workspace, so the local manifest
wins whenever `is_local` is set. -/
theorem run_hook_manifest_resolution
    (p : Platform) (hc : String → List String → List String)
    (cwd prefixPath prefixPath2 entry : String) (args fileArgs : List String)
    (is_local require_serial color : Bool) (tr : List Action)
    (h : run_hook p hc cwd prefixPath entry args fileArgs is_local
          require_serial color = some tr) :
    manifestArgs tr =
      [ manifest_path p is_local cwd prefixPath,
        manifest_path p is_local cwd prefixPath ] ∧
    manifest_path p true cwd prefixPath = joinPath p cwd "pixi.toml" ∧
    manifest_path p false cwd prefixPath =
      prefix_path p prefixPath "pixi.toml" ∧
    run_hook p hc cwd prefixPath entry args fileArgs true require_serial
        color =
      run_hook p hc cwd prefixPath2 entry args fileArgs true require_serial
        color := by
  obtain ⟨env, htr⟩ := run_hook_cases p hc cwd prefixPath entry args fileArgs
    is_local require_serial color tr h
  subst htr
  refine ⟨?_, rfl, rfl, rfl⟩
  simp [manifestArgs]

/-- Witness for C8 at a concrete local invocation. -/
theorem run_hook_manifest_resolution_witness :
    manifestArgs
      [ Action.cmdOutputB
          ["pixi", "install", "--manifest-path", "/cwd/pixi.toml", "-e",
            "default"],
        Action.runXargs
          ["pixi", "run", "--manifest-path", "/cwd/pixi.toml", "echo", "hi"]
          ["f"] false false ] =
      [ manifest_path linuxP true "/cwd" "/ws",
        manifest_path linuxP true "/cwd" "/ws" ] ∧
    manifest_path linuxP true "/cwd" "/ws" = joinPath linuxP "/cwd" "pixi.toml" ∧
    manifest_path linuxP false "/cwd" "/ws" =
      prefix_path linuxP "/ws" "pixi.toml" ∧
    run_hook linuxP hcSample "/cwd" "/ws" "echo" ["hi"] ["f"] true false
        false =
      run_hook linuxP hcSample "/cwd" "/ws2" "echo" ["hi"] ["f"] true false
        false :=
  run_hook_manifest_resolution linuxP hcSample "/cwd" "/ws" "/ws2" "echo"
    ["hi"] ["f"] true false false
    [ Action.cmdOutputB
        ["pixi", "install", "--manifest-path", "/cwd/pixi.toml", "-e",
          "default"],
      Action.runXargs
        ["pixi", "run", "--manifest-path", "/cwd/pixi.toml", "echo", "hi"]
        ["f"] false false ]
    (by decide)

/-- C1 (counterexample): at a concrete invocation, not every toolchain
subcommand issued by `run_hook` is the run subcommand — the run phase also
issues an install subcommand. -/
theorem run_hook_only_run_counterexample :
    ¬ ∀ s ∈ pixiSubcommands
        ((run_hook linuxP hcSample "/cwd" "/ws" "echo" [] [] false false
            false).getD []),
      s = "run" := by decide

/-- C1 (amended): every successful invocation of `run_hook` issues exactly
two toolchain subcommands, in order: one synchronous `install` (the run
phase does perform installation work, serially, before running) and then the
`run` subcommand handed to the batched runner. -/
theorem run_hook_subcommands_install_then_run
    (p : Platform) (hc : String → List String → List String)
    (cwd prefixPath entry : String) (args fileArgs : List String)
    (is_local require_serial color : Bool) (tr : List Action)
    (h : run_hook p hc cwd prefixPath entry args fileArgs is_local
          require_serial color = some tr) :
    pixiSubcommands tr = ["install", "run"] := by
  obtain ⟨env, htr⟩ := run_hook_cases p hc cwd prefixPath entry args fileArgs
    is_local require_serial color tr h
  subst htr
  simp [pixiSubcommands]

/-- Witness for the amended C1 at a concrete invocation. -/
theorem run_hook_subcommands_install_then_run_witness :
    pixiSubcommands
      [ Action.cmdOutputB
          ["pixi", "install", "--manifest-path", "/ws/pixi.toml", "-e",
            "default"],
        Action.runXargs
          ["pixi", "run", "--manifest-path", "/ws/pixi.toml", "echo"]
          [] false false ] = ["install", "run"] :=
  run_hook_subcommands_install_then_run linuxP hcSample "/cwd" "/ws" "echo"
    [] [] false false false
    [ Action.cmdOutputB
        ["pixi", "install", "--manifest-path", "/ws/pixi.toml", "-e",
          "default"],
      Action.runXargs
        ["pixi", "run", "--manifest-path", "/ws/pixi.toml", "echo"]
        [] false false ]
    (by decide)

/-- C3 (counterexample): at a concrete invocation the command handed per
file-argument chunk to the batched runner is the run subcommand with the
manifest path immediately followed by the user command — there is no room
for a lockfile-mutation-suppressing flag between them. -/
theorem run_hook_lockfile_flag_counterexample :
    xargsArgv
      ((run_hook linuxP hcSample "/cwd" "/ws" "echo" ["hi"] [] false false
          false).getD []) =
      some ["pixi", "run", "--manifest-path", "/ws/pixi.toml", "echo",
        "hi"] ∧
    ¬ ∃ flag : String,
        (["pixi", "run", "--manifest-path", "/ws/pixi.toml", "echo", "hi"] :
            List String) =
          ["pixi", "run", "--manifest-path", "/ws/pixi.toml", flag, "echo",
            "hi"] := by
  refine ⟨by decide, ?_⟩
  rintro ⟨flag, hflag⟩
  have hlen := congrArg List.length hflag
  simp at hlen

/-- C3 (amended): for every invocation of `run_hook`, the final command
executed per file-argument chunk is the toolchain's run subcommand with the
resolved manifest path followed directly by the user-declared entry point
and static arguments — no lockfile-update-suppression flag (nor any other
flag) is passed. -/
theorem run_hook_final_command_no_extra_flag
    (p : Platform) (hc : String → List String → List String)
    (cwd prefixPath entry : String) (args fileArgs : List String)
    (is_local require_serial color : Bool) (tr : List Action)
    (h : run_hook p hc cwd prefixPath entry args fileArgs is_local
          require_serial color = some tr) :
    xargsArgv tr =
      some (["pixi", "run", "--manifest-path",
        manifest_path p is_local cwd prefixPath] ++ hc entry args) := by
  obtain ⟨env, htr⟩ := run_hook_cases p hc cwd prefixPath entry args fileArgs
    is_local require_serial color tr h
  subst htr
  simp [xargsArgv]

/-- Witness for the amended C3 at a concrete invocation. -/
theorem run_hook_final_command_no_extra_flag_witness :
    xargsArgv
      [ Action.cmdOutputB
          ["pixi", "install", "--manifest-path", "/ws/pixi.toml", "-e",
            "default"],
        Action.runXargs
          ["pixi", "run", "--manifest-path", "/ws/pixi.toml", "echo", "hi"]
          [] false false ] =
      some (["pixi", "run", "--manifest-path",
        manifest_path linuxP false "/cwd" "/ws"] ++ hcSample "echo" ["hi"]) :=
  run_hook_final_command_no_extra_flag linuxP hcSample "/cwd" "/ws" "echo"
    ["hi"] [] false false false
    [ Action.cmdOutputB
        ["pixi", "install", "--manifest-path", "/ws/pixi.toml", "-e",
          "default"],
      Action.runXargs
        ["pixi", "run", "--manifest-path", "/ws/pixi.toml", "echo", "hi"]
        [] false false ]
    (by decide)

/-- C10: before the run subcommand, `run_hook` issues one synchronous pixi
install against the resolved manifest with an explicit environment name
extracted from the composed hook command: the element following a leading
`-e`/`--environment`, the text after the first `=` of a leading `-e=...` or
`--environment=...`, and `default` otherwise. -/
theorem run_hook_preinstall_environment_selection
    (p : Platform) (hc : String → List String → List String)
    (cwd prefixPath entry : String) (args fileArgs : List String)
    (is_local require_serial color : Bool) (c0 : String) (rest : List String)
    (hcmd : hc entry args = c0 :: rest) :
    ((c0 = "-e" ∨ c0 = "--environment") → ∀ e t, rest = e :: t →
      run_hook p hc cwd prefixPath entry args fileArgs is_local
          require_serial color =
        some
          [ Action.cmdOutputB
              ["pixi", "install", "--manifest-path",
                manifest_path p is_local cwd prefixPath, "-e", e],
            Action.runXargs
              (["pixi", "run", "--manifest-path",
                manifest_path p is_local cwd prefixPath] ++ (c0 :: rest))
              fileArgs require_serial color ]) ∧
    (¬(c0 = "-e" ∨ c0 = "--environment") →
      (startsWith "-e=" c0 = true ∨ startsWith "--environment=" c0 = true) →
      ∀ pre post, splitOnce '=' c0 = [pre, post] →
      run_hook p hc cwd prefixPath entry args fileArgs is_local
          require_serial color =
        some
          [ Action.cmdOutputB
              ["pixi", "install", "--manifest-path",
                manifest_path p is_local cwd prefixPath, "-e", post],
            Action.runXargs
              (["pixi", "run", "--manifest-path",
                manifest_path p is_local cwd prefixPath] ++ (c0 :: rest))
              fileArgs require_serial color ]) ∧
    (¬(c0 = "-e" ∨ c0 = "--environment") →
      ¬(startsWith "-e=" c0 = true ∨ startsWith "--environment=" c0 = true) →
      run_hook p hc cwd prefixPath entry args fileArgs is_local
          require_serial color =
        some
          [ Action.cmdOutputB
              ["pixi", "install", "--manifest-path",
                manifest_path p is_local cwd prefixPath, "-e", "default"],
            Action.runXargs
              (["pixi", "run", "--manifest-path",
                manifest_path p is_local cwd prefixPath] ++ (c0 :: rest))
              fileArgs require_serial color ]) := by
  refine ⟨?_, ?_, ?_⟩
  · rintro h1 e t hrest
    subst hrest
    simp only [run_hook, hcmd]
    rw [if_pos h1]
    rfl
  · rintro h1 h2 pre post hsplit
    simp only [run_hook, hcmd]
    rw [if_neg h1, if_pos h2, hsplit]
    rfl
  · rintro h1 h2
    simp only [run_hook, hcmd]
    rw [if_neg h1, if_neg h2]
    rfl

/-- Witness for C10 with an explicit leading environment flag. -/
theorem run_hook_preinstall_environment_selection_witness :
    run_hook linuxP hcSample "/cwd" "/ws" "-e" ["dev", "task"] ["f.py"] false
        true false =
      some
        [ Action.cmdOutputB
            ["pixi", "install", "--manifest-path",
              manifest_path linuxP false "/cwd" "/ws", "-e", "dev"],
          Action.runXargs
            (["pixi", "run", "--manifest-path",
              manifest_path linuxP false "/cwd" "/ws"] ++
              ("-e" :: ["dev", "task"]))
            ["f.py"] true false ] :=
  (run_hook_preinstall_environment_selection linuxP hcSample "/cwd" "/ws"
      "-e" ["dev", "task"] ["f.py"] false true false "-e" ["dev", "task"]
      rfl).1
    (Or.inl rfl) "dev" ["task"] rfl

end Pixi
